import Mathlib

/-!
Shallow embedding of the protoo Peer engine (`lib/Peer.js`, given as
`src/unnamed/part_000`) and of the reference WebSocket transport
(`src/server/lib/transports/WebSocketTransport.js`).

The Peer is single-threaded JavaScript: every handler body runs atomically,
so the engine is modelled as a state record together with one Lean function
per handler / method body.  Interleavings of the response-arrival path, the
timer-firing path and the close path are modelled as sequences of these
atomic steps.  Timers are modelled by an `Active` flag on the entry that owns
them (`clearTimeout` clears the flag; a callback of a cleared timer never
runs).  Promise continuations (`pResolve` / `pReject`) are modelled by an
append-only log `settles`: one log entry per continuation invocation.
Calls made on the current transport and events emitted by the Peer are
likewise recorded in append-only logs.
-/

/-- JavaScript values carried as response data or error payloads. -/
inductive JsVal where
  | undef
  | num (n : Int)
  | str (s : String)
deriving DecidableEq, Repr

/-- One invocation of a pending request's resolver or rejecter continuation.
`rejected message code` records `pReject(error)` where `error.message` is
`message` and `error.code` (set only on the remote-error-response path) is
`code`. -/
inductive Settle where
  | resolved (data : JsVal)
  | rejected (message : String) (code : Option Int)
deriving DecidableEq, Repr

/-- An entry of `this._sents`: the pending-request table. `timerActive`
models whether the entry's `setTimeout` timer is still scheduled (it is
cleared by `clearTimeout` and consumed when it fires). `timeoutMs` is the
duration passed to `setTimeout`, embedded exactly over `ℚ`. -/
structure Sent where
  id : Nat
  method : String
  timerActive : Bool
  timeoutMs : ℚ
deriving DecidableEq, Repr

/-- Events emitted by the Peer via `safeEmit`. -/
inductive Emit where
  | close (code : Int) (reason : String)
  | pong
deriving DecidableEq, Repr

/-- Calls the Peer makes on its current transport. -/
inductive TransportOp where
  | close (code : Int) (reason : String)
  | drop
  | send
deriving DecidableEq, Repr

/-- The mutable state of a Peer (`this._closed`, `this._reconnecting`,
`this._sents`, `this._timeout`, `this._timeoutId`, `this._lastMsgTime`),
together with the append-only observation logs. `timeoutArmed` models
whether `this._timeoutId` currently holds a live watchdog timer. -/
structure PeerState where
  closed : Bool
  reconnecting : Bool
  sents : List Sent
  timeoutCfg : Option Nat
  timeoutArmed : Bool
  lastMsgTime : Option Nat
  settles : List (Nat × Settle)
  emitted : List Emit
  transportOps : List TransportOp
deriving DecidableEq, Repr

/-- Result of `clearTimeout(sent.timer)` on an entry that stays in the
table: same entry with its timer flag down. -/
def Sent.timerCleared (s : Sent) : Sent :=
  { s with timerActive := false }

/-- The settle-log record produced by an entry's `sent.close` hook:
`pReject(new Error('peer closed'))`. -/
def Sent.closeSettle (s : Sent) : Nat × Settle :=
  (s.id, Settle.rejected "peer closed" none)

/-- Membership test of the pending table, as `this._sents.has / get` keyed by
request id. -/
def hasSent (sents : List Sent) (i : Nat) : Bool :=
  sents.any fun s => s.id == i

/-- Removal from the pending table, as `this._sents.delete(id)`. -/
def removeSent (sents : List Sent) (i : Nat) : List Sent :=
  sents.filter fun s => s.id != i

/-- Body of the `sent.resolve` continuation: `if (!this._sents.delete(id))
return; clearTimeout(sent.timer); pResolve(data)`.  Removing the entry
discards its timer with it. -/
def sentResolve (st : PeerState) (i : Nat) (data : JsVal) : PeerState :=
  if hasSent st.sents i then
    { st with sents := removeSent st.sents i,
              settles := st.settles ++ [(i, Settle.resolved data)] }
  else st

/-- Body of the `sent.reject` continuation: `if (!this._sents.delete(id))
return; clearTimeout(sent.timer); pReject(error)`. -/
def sentReject (st : PeerState) (i : Nat) (message : String) (code : Option Int) :
    PeerState :=
  if hasSent st.sents i then
    { st with sents := removeSent st.sents i,
              settles := st.settles ++ [(i, Settle.rejected message code)] }
  else st

/-- The entry's timer firing.  The callback only runs while its timer is
still scheduled (`timerActive`); its body is `if (!this._sents.delete(id))
return; pReject(new Error('request timeout'))`. -/
def timerFire (st : PeerState) (i : Nat) : PeerState :=
  if st.sents.any (fun s => s.id == i && s.timerActive) then
    { st with sents := removeSent st.sents i,
              settles := st.settles ++ [(i, Settle.rejected "request timeout" none)] }
  else st

/-- A wire response message, already parsed: `{ response: true, ok, id,
data | errorCode, errorReason }`. -/
structure RespMsg where
  id : Nat
  ok : Bool
  data : JsVal
  errorCode : Int
  errorReason : String
deriving DecidableEq, Repr

/-- `Peer._handleResponse`: look the id up in `this._sents`; a miss is
logged and dropped; on a hit, `sent.resolve(response.data)` when `ok`,
otherwise `sent.reject(error)` with `error.message = errorReason` and
`error.code = errorCode`. -/
def Peer.handleResponse (st : PeerState) (r : RespMsg) : PeerState :=
  if hasSent st.sents r.id then
    if r.ok then sentResolve st r.id r.data
    else sentReject st r.id r.errorReason (some r.errorCode)
  else st

/-- `Peer.close(code = 4000, reason = 'Normal close by server')`: a no-op
when already closed; otherwise sets `_closed`, clears the idle watchdog,
calls `transport.close(code, reason)`, invokes `sent.close()` on every
pending entry (which clears that entry's timer and rejects with
`'peer closed'`, WITHOUT deleting the entry from the table), and emits
`close(code, reason)`. -/
def Peer.close (st : PeerState) (code : Int) (reason : String) : PeerState :=
  if st.closed then st
  else
    { st with
      closed := true,
      timeoutArmed := false,
      transportOps := st.transportOps ++ [TransportOp.close code reason],
      sents := st.sents.map Sent.timerCleared,
      settles := st.settles ++ st.sents.map Sent.closeSettle,
      emitted := st.emitted ++ [Emit.close code reason] }

/-- `Peer._handleTransport`'s initial check: if the (new) transport is
already closed, set `_closed` and emit a deferred
`close(1006, 'transport already closed')`; otherwise just subscribe the
handlers (no state change). -/
def Peer.handleTransportAttach (st : PeerState) (transportClosed : Bool) : PeerState :=
  if transportClosed then
    { st with closed := true,
              emitted := st.emitted ++ [Emit.close 1006 "transport already closed"] }
  else st

/-- `Peer.setNewTransport(transport)`: calls `drop()` on the old transport,
invokes `sent.close()` on every pending entry (clearing its timer and
rejecting `'peer closed'` without removing it), installs the new transport
and runs `_handleTransport()`.  Note that `this._reconnecting` is not
touched.  (The drop call assumes a transport implementing the `drop`
capability of the Transport interface; see `Peer.handleTimeout` for the
dynamic-lookup behaviour when it is missing.) -/
def Peer.setNewTransport (st : PeerState) (newTransportClosed : Bool) : PeerState :=
  Peer.handleTransportAttach
    { st with
      transportOps := st.transportOps ++ [TransportOp.drop],
      sents := st.sents.map Sent.timerCleared,
      settles := st.settles ++ st.sents.map Sent.closeSettle }
    newTransportClosed

/-- The handler `Peer._handleTransport` subscribes to the transport's
`close(code, reason)` event: ignored when the Peer is closed; a soft
disconnect (`code === 4001 || reason === 'Connection dropped by remote
peer.'`) only sets `_reconnecting`; anything else sets `_closed` and emits
`close(code, reason)`. -/
def Peer.onTransportClose (st : PeerState) (code : Int) (reason : String) : PeerState :=
  if st.closed then st
  else if code == 4001 || reason == "Connection dropped by remote peer." then
    { st with reconnecting := true }
  else
    { st with closed := true, emitted := st.emitted ++ [Emit.close code reason] }

/-- An inbound parsed message, classified by the codec tag fields. -/
inductive InMsg where
  | request (id : Nat) (method : String)
  | response (r : RespMsg)
  | notif (method : String)
deriving DecidableEq, Repr

/-- The transport `message` handler: records `Date.now()` into
`_lastMsgTime`, re-arms the idle watchdog when `this._timeout` is
configured, then dispatches by classification.  Inbound requests and
notifications are delivered to the application (their continuations are
modelled by `rejectContinuation` below); responses go through
`_handleResponse`. -/
def Peer.onMessage (st : PeerState) (now : Nat) (m : InMsg) : PeerState :=
  let st1 := { st with
    lastMsgTime := some now,
    timeoutArmed := if st.timeoutCfg.isSome then true else st.timeoutArmed }
  match m with
  | InMsg.request _ _ => st1
  | InMsg.response r => Peer.handleResponse st1 r
  | InMsg.notif _ => st1

/-- The transport `pong` handler: records `_lastMsgTime`, re-arms the idle
watchdog when configured, and emits `pong`. -/
def Peer.onPong (st : PeerState) (now : Nat) : PeerState :=
  { st with
    lastMsgTime := some now,
    timeoutArmed := if st.timeoutCfg.isSome then true else st.timeoutArmed,
    emitted := st.emitted ++ [Emit.pong] }

/-- The Peer constructor `(peerId, transport, timeout = null)`: all flags
down, empty pending table, `_timeoutId = null` (watchdog not armed), then
`_handleTransport()` on the supplied transport. -/
def Peer.construct (timeoutCfg : Option Nat) (transportClosed : Bool) : PeerState :=
  Peer.handleTransportAttach
    { closed := false, reconnecting := false, sents := [],
      timeoutCfg := timeoutCfg, timeoutArmed := false, lastMsgTime := none,
      settles := [], emitted := [], transportOps := [] }
    transportClosed

/-- The `setTimeout` duration computed in `Peer.request`:
`2000 * (15 + (0.1 * this._sents.size))`, embedded exactly over `ℚ`. -/
def requestTimeout (pendingCount : Nat) : ℚ :=
  2000 * (15 + (1 / 10) * pendingCount)

/-- Outcome of a `Peer.request` call as seen by the caller. -/
inductive ReqResult where
  | empty
  | registered (id : Nat)
deriving DecidableEq, Repr

/-- `Peer.request(method, data)`.  When `_reconnecting`, returns `undefined`
immediately: nothing is sent and nothing is registered.  Otherwise the
frame (with a fresh id, modelled by the `freshId` parameter standing for
`Message.createRequest`'s id) is handed to `transport.send`, whose outcome
is the `sendResult` parameter; a failure propagates to the caller with no
entry registered, and on success a pending entry with an armed timer of
duration `requestTimeout` (taken at registration time) is installed. -/
def Peer.request (st : PeerState) (freshId : Nat) (method : String)
    (sendResult : Except String Unit) : Except String ReqResult × PeerState :=
  if st.reconnecting then
    (Except.ok ReqResult.empty, st)
  else
    match sendResult with
    | Except.error e =>
        (Except.error e, { st with transportOps := st.transportOps ++ [TransportOp.send] })
    | Except.ok _ =>
        (Except.ok (ReqResult.registered freshId),
         { st with
           transportOps := st.transportOps ++ [TransportOp.send],
           sents := st.sents ++
             [{ id := freshId, method := method, timerActive := true,
                timeoutMs := requestTimeout st.sents.length }] })

/-- `Peer.notify(method, data)`: returns `undefined` without sending while
`_reconnecting`; otherwise sends and propagates a send failure.  The `Bool`
result records whether a frame was actually sent. -/
def Peer.notify (st : PeerState) (sendResult : Except String Unit) :
    Except String Bool × PeerState :=
  if st.reconnecting then (Except.ok false, st)
  else
    match sendResult with
    | Except.error e =>
        (Except.error e, { st with transportOps := st.transportOps ++ [TransportOp.send] })
    | Except.ok _ =>
        (Except.ok true, { st with transportOps := st.transportOps ++ [TransportOp.send] })

/-- `Peer._handleTimeout`, the idle-watchdog callback: inside a try/catch it
calls `this._transport.drop()` and then `this.close(1006, 'Timed out')`.
JavaScript resolves `drop` dynamically: when the current transport defines
no `drop` method the call raises a `TypeError`, the catch logs it, and
`close` is never reached.  `transportHasDrop` is that dynamic lookup. -/
def Peer.handleTimeout (transportHasDrop : Bool) (st : PeerState) : PeerState :=
  if transportHasDrop then
    Peer.close { st with transportOps := st.transportOps ++ [TransportOp.drop] }
      1006 "Timed out"
  else st

/-- An argument passed to the inbound-request `reject` continuation: an
`Error` instance (carrying its `message`), a number, a string, or
`undefined` (the missing second argument). -/
inductive RejectArg where
  | err (message : String)
  | num (n : Int)
  | str (s : String)
  | undef
deriving DecidableEq, Repr

/-- The argument normalization at the top of the `reject` continuation in
`Peer._handleRequest`: an `Error` first argument becomes code `500` with
its message as reason; a numeric first argument with an `Error` second
keeps the number and takes the error's message; anything else passes
through unchanged. -/
def rejectNormalize (errorCode errorReason : RejectArg) : RejectArg × RejectArg :=
  match errorCode, errorReason with
  | RejectArg.err m, _ => (RejectArg.num 500, RejectArg.str m)
  | RejectArg.num n, RejectArg.err m => (RejectArg.num n, RejectArg.str m)
  | c, r => (c, r)

/-- Modelled from the spec: `Message.createErrorResponse(request, code,
reason)` (the `Message.js` codec is not among the given sources) copies the
request's id and carries the error code and reason into the wire error
response `{ response: true, ok: false, id, errorCode, errorReason }`. -/
structure ErrorResponseMsg where
  id : Nat
  errorCode : RejectArg
  errorReason : RejectArg
deriving DecidableEq, Repr

/-- The `reject` continuation handed to the `request` event by
`Peer._handleRequest`: normalizes its two arguments and builds the wire
error response for the request's id. -/
def rejectContinuation (reqId : Nat) (errorCode errorReason : RejectArg) :
    ErrorResponseMsg :=
  { id := reqId,
    errorCode := (rejectNormalize errorCode errorReason).1,
    errorReason := (rejectNormalize errorCode errorReason).2 }

/-- State of the reference WebSocket transport: its `_closed` flag and
whether its ping-interval and ping-timeout timers are live. -/
structure WSState where
  closed : Bool
  pingIntervalActive : Bool
  pingTimeoutActive : Bool
deriving DecidableEq, Repr

/-- Externally visible effects of the WebSocket transport: its upward
`safeEmit('close')` (which passes no code/reason arguments) and the calls
on the underlying `WebSocketConnection`. -/
inductive WSEffect where
  | emitCloseNoArgs
  | connClose (code : Int) (reason : String)
deriving DecidableEq, Repr

/-- `WebSocketTransport.close`.  The source method is declared with no
parameters, so the `code`/`reason` a caller passes (`Peer.close` passes
both) are ignored.  A no-op when already closed; otherwise it sets
`_closed`, clears both timers, emits `close` with no arguments, and closes
the underlying connection with `(4000, 'closed by protoo-server')`. -/
def wsClose (code : Int) (reason : String) (ws : WSState) : WSState × List WSEffect :=
  if ws.closed then (ws, [])
  else
    ({ closed := true, pingIntervalActive := false, pingTimeoutActive := false },
     [WSEffect.emitCloseNoArgs, WSEffect.connClose 4000 "closed by protoo-server"])

/-- The method names defined by the `WebSocketTransport` class body in
`src/server/lib/transports/WebSocketTransport.js` (getters included).
JavaScript method dispatch on a transport instance succeeds exactly for
these names. -/
def wsTransportMethods : List String :=
  ["constructor", "closed", "toString", "close", "send",
   "_handleConnection", "_sendPing", "_handlePong", "_handlePingTimeout"]

/-- One atomic step racing to complete the pending entry `i`: a matching
success response, a matching error response, or the entry's own timer
firing. -/
inductive RaceStep where
  | respOk (data : JsVal)
  | respErr (code : Int) (reason : String)
  | timer
deriving DecidableEq, Repr

/-- Semantics of a race step on the Peer state. -/
def raceStep (i : Nat) (st : PeerState) (s : RaceStep) : PeerState :=
  match s with
  | RaceStep.respOk d =>
      Peer.handleResponse st { id := i, ok := true, data := d, errorCode := 0, errorReason := "" }
  | RaceStep.respErr c r =>
      Peer.handleResponse st { id := i, ok := false, data := JsVal.undef, errorCode := c, errorReason := r }
  | RaceStep.timer => timerFire st i

/-- Inbound events a Peer can receive from its transport. -/
inductive PeerEvt where
  | message (now : Nat) (m : InMsg)
  | pong (now : Nat)
  | transportClose (code : Int) (reason : String)
deriving DecidableEq, Repr

/-- Dispatch of an inbound transport event to its handler. -/
def Peer.step (st : PeerState) (e : PeerEvt) : PeerState :=
  match e with
  | PeerEvt.message now m => Peer.onMessage st now m
  | PeerEvt.pong now => Peer.onPong st now
  | PeerEvt.transportClose c r => Peer.onTransportClose st c r

/-- Whether an event is inbound activity (a message or a pong), i.e. the
events that reset the idle watchdog. -/
def isInboundActivity : PeerEvt → Bool
  | PeerEvt.message _ _ => true
  | PeerEvt.pong _ => true
  | PeerEvt.transportClose _ _ => false

/-! Helper lemmas about the pending table and the race steps. -/

theorem hasSent_of_active {l : List Sent} {i : Nat}
    (h : (l.any fun s => s.id == i && s.timerActive) = true) : hasSent l i = true := by
  simp only [hasSent]
  rcases List.any_eq_true.mp h with ⟨x, hx, hpx⟩
  rw [Bool.and_eq_true] at hpx
  exact List.any_eq_true.mpr ⟨x, hx, hpx.1⟩

theorem active_any_false {l : List Sent} {i : Nat} (h : hasSent l i = false) :
    (l.any fun s => s.id == i && s.timerActive) = false := by
  simp only [hasSent] at h
  rw [List.any_eq_false] at h ⊢
  intro x hx hcon
  rw [Bool.and_eq_true] at hcon
  exact h x hx hcon.1

theorem removeSent_absent (l : List Sent) (i : Nat) :
    hasSent (removeSent l i) i = false := by
  simp only [hasSent, removeSent]
  rw [List.any_eq_false]
  intro x hx
  have hmem := List.mem_filter.mp hx
  simpa using hmem.2

theorem raceStep_absent (i : Nat) (st : PeerState) (s : RaceStep)
    (h : hasSent st.sents i = false) : raceStep i st s = st := by
  cases s with
  | respOk d => simp [raceStep, Peer.handleResponse, h]
  | respErr c r => simp [raceStep, Peer.handleResponse, h]
  | timer => simp [raceStep, timerFire, active_any_false h]

theorem raceFold_absent (i : Nat) (steps : List RaceStep) (st : PeerState)
    (h : hasSent st.sents i = false) :
    steps.foldl (raceStep i) st = st := by
  induction steps with
  | nil => rfl
  | cons s t ih => rw [List.foldl_cons, raceStep_absent i st s h]; exact ih

theorem raceStep_present (i : Nat) (st : PeerState) (s : RaceStep)
    (h : (st.sents.any fun x => x.id == i && x.timerActive) = true) :
    ∃ out : Settle,
      raceStep i st s =
        { st with sents := removeSent st.sents i,
                  settles := st.settles ++ [(i, out)] } := by
  have hp : hasSent st.sents i = true := hasSent_of_active h
  cases s with
  | respOk d =>
      exact ⟨Settle.resolved d, by simp [raceStep, Peer.handleResponse, sentResolve, hp]⟩
  | respErr c r =>
      exact ⟨Settle.rejected r (some c), by simp [raceStep, Peer.handleResponse, sentReject, hp]⟩
  | timer =>
      exact ⟨Settle.rejected "request timeout" none, by simp [raceStep, timerFire, h]⟩

/-! Claim theorems. -/

/-- C1: the claim states that `setNewTransport` clears `reconnecting` back
to false so that later `request`/`notify` calls send normally.  The code
never resets `_reconnecting` anywhere: after a soft disconnect it stays
`true` across `setNewTransport`, so `request` keeps returning empty without
sending (the state, its transport-op log included, is untouched) and
`notify` keeps returning without sending.  This theorem evaluates the code
at that failing input. -/
theorem C1_reconnecting_never_cleared :
    (Peer.onTransportClose (Peer.construct none false) 4001 "bye").reconnecting = true ∧
    (Peer.setNewTransport (Peer.onTransportClose (Peer.construct none false) 4001 "bye")
        false).reconnecting = true ∧
    (Peer.request
        (Peer.setNewTransport (Peer.onTransportClose (Peer.construct none false) 4001 "bye") false)
        7 "chat" (Except.ok ())).1 = Except.ok ReqResult.empty ∧
    (Peer.request
        (Peer.setNewTransport (Peer.onTransportClose (Peer.construct none false) 4001 "bye") false)
        7 "chat" (Except.ok ())).2 =
      Peer.setNewTransport (Peer.onTransportClose (Peer.construct none false) 4001 "bye") false ∧
    (Peer.notify
        (Peer.setNewTransport (Peer.onTransportClose (Peer.construct none false) 4001 "bye") false)
        (Except.ok ())).1 = Except.ok false :=
  ⟨rfl, rfl, rfl, rfl, rfl⟩

/-- C2 counterexample: the claim asserts that the resolver/rejecter
continuations of an outstanding request fire exactly once under any
interleaving that includes the close path.  On the code, the `sent.close`
hook rejects without removing the entry from the table, so after
`setNewTransport` a later matching success response still finds the entry
and invokes the resolver: the continuation log for request 42 shows two
invocations. -/
theorem C2_close_then_response_double_settle :
    (Peer.handleResponse
        (Peer.setNewTransport
          (Peer.request (Peer.construct none false) 42 "chat" (Except.ok ())).2 false)
        { id := 42, ok := true, data := JsVal.undef, errorCode := 0, errorReason := "" }).settles =
      [(42, Settle.rejected "peer closed" none), (42, Settle.resolved JsVal.undef)] :=
  rfl

/-- C2 (amended): under any interleaving of the response-arrival path and
the timer-firing path, the pending entry is removed from the table exactly
once — the first path to remove it wins and invokes its continuation, and
every later path finds the entry absent and becomes a no-op — so the
continuation fires exactly once.  (The close path, by contrast, rejects
without removing the entry; see the counterexample.) -/
theorem C2_settle_once_response_timer (i : Nat) (st0 : PeerState) (steps : List RaceStep)
    (hpres : (st0.sents.any fun s => s.id == i && s.timerActive) = true)
    (hcount : (st0.settles.filter fun p => p.1 == i) = [])
    (hne : steps ≠ []) :
    hasSent (steps.foldl (raceStep i) st0).sents i = false ∧
    ((steps.foldl (raceStep i) st0).settles.filter fun p => p.1 == i).length = 1 := by
  cases steps with
  | nil => exact absurd rfl hne
  | cons s rest =>
    obtain ⟨out, hstep⟩ := raceStep_present i st0 s hpres
    have habs : hasSent (raceStep i st0 s).sents i = false := by
      rw [hstep]
      exact removeSent_absent st0.sents i
    rw [List.foldl_cons, raceFold_absent i rest _ habs, hstep]
    refine ⟨removeSent_absent st0.sents i, ?_⟩
    simp [List.filter_append, hcount]

/-- C2 witness: a freshly registered request whose timer fires (and against
which no further step runs) is settled exactly once and leaves the table. -/
theorem C2_settle_once_response_timer_witness :
    hasSent (([RaceStep.timer]).foldl (raceStep 42)
        (Peer.request (Peer.construct none false) 42 "chat" (Except.ok ())).2).sents 42 = false ∧
    ((([RaceStep.timer]).foldl (raceStep 42)
        (Peer.request (Peer.construct none false) 42 "chat" (Except.ok ())).2).settles.filter
        fun p => p.1 == 42).length = 1 :=
  C2_settle_once_response_timer 42
    (Peer.request (Peer.construct none false) 42 "chat" (Except.ok ())).2
    [RaceStep.timer] rfl rfl (by simp)

/-- C3 counterexample: the claim asserts the pending table is empty after
`close()`.  On the code, `close()` invokes each entry's `sent.close` hook —
which clears the timer and rejects, but never deletes — and never clears
the map, so a Peer with one outstanding request still has a non-empty
table after `close()`. -/
theorem C3_close_leaves_table_nonempty :
    (Peer.close (Peer.request (Peer.construct none false) 42 "chat" (Except.ok ())).2
        4000 "Normal close by server").sents ≠ [] := by
  decide

/-- C3 (amended): after `close()` (on a not-yet-closed Peer) and after
`setNewTransport()`, every pending entry has had its timer cancelled and
its rejecter invoked with a `peer closed` error, but the entries themselves
remain in the pending table — the table is not emptied. -/
theorem C3_close_rejects_but_keeps_entries (st : PeerState) (code : Int) (reason : String)
    (h : st.closed = false) :
    (Peer.close st code reason).sents = st.sents.map Sent.timerCleared ∧
    (Peer.close st code reason).settles =
      st.settles ++ st.sents.map Sent.closeSettle ∧
    (Peer.setNewTransport st false).sents = st.sents.map Sent.timerCleared ∧
    (Peer.setNewTransport st false).settles =
      st.settles ++ st.sents.map Sent.closeSettle := by
  simp [Peer.close, Peer.setNewTransport, Peer.handleTransportAttach, h]

/-- C3 witness: the amended statement evaluated on a Peer holding one
outstanding request. -/
theorem C3_close_rejects_but_keeps_entries_witness :
    (Peer.close (Peer.request (Peer.construct none false) 42 "chat" (Except.ok ())).2
        4000 "Normal close by server").sents =
      (Peer.request (Peer.construct none false) 42 "chat" (Except.ok ())).2.sents.map
        Sent.timerCleared ∧
    (Peer.close (Peer.request (Peer.construct none false) 42 "chat" (Except.ok ())).2
        4000 "Normal close by server").settles =
      (Peer.request (Peer.construct none false) 42 "chat" (Except.ok ())).2.settles ++
        (Peer.request (Peer.construct none false) 42 "chat" (Except.ok ())).2.sents.map
          Sent.closeSettle ∧
    (Peer.setNewTransport (Peer.request (Peer.construct none false) 42 "chat" (Except.ok ())).2
        false).sents =
      (Peer.request (Peer.construct none false) 42 "chat" (Except.ok ())).2.sents.map
        Sent.timerCleared ∧
    (Peer.setNewTransport (Peer.request (Peer.construct none false) 42 "chat" (Except.ok ())).2
        false).settles =
      (Peer.request (Peer.construct none false) 42 "chat" (Except.ok ())).2.settles ++
        (Peer.request (Peer.construct none false) 42 "chat" (Except.ok ())).2.sents.map
          Sent.closeSettle :=
  C3_close_rejects_but_keeps_entries
    (Peer.request (Peer.construct none false) 42 "chat" (Except.ok ())).2
    4000 "Normal close by server" rfl

/-- C4: when the idle watchdog fires, the Peer's code does call
`transport.drop()` and then `close(1006, "Timed out")` — but only on a
transport that defines `drop`.  The claim also asserts that the reference
WebSocket transport provides a `drop()` operation; it does not: `drop` is
not among the methods of `WebSocketTransport`, so with that transport the
watchdog's dynamic `drop` lookup fails, the thrown `TypeError` is swallowed
by the catch, and the Peer is left entirely unchanged — in particular it is
never closed with `(1006, "Timed out")`. -/
theorem C4_ws_transport_lacks_drop :
    wsTransportMethods.contains "drop" = false ∧
    Peer.handleTimeout (wsTransportMethods.contains "drop") (Peer.construct (some 10) false) =
      Peer.construct (some 10) false ∧
    (Peer.handleTimeout true (Peer.construct (some 10) false)).transportOps =
      [TransportOp.drop, TransportOp.close 1006 "Timed out"] ∧
    (Peer.handleTimeout true (Peer.construct (some 10) false)).closed = true ∧
    (Peer.handleTimeout true (Peer.construct (some 10) false)).emitted =
      [Emit.close 1006 "Timed out"] :=
  ⟨by decide, by decide, rfl, rfl, rfl⟩

/-- C5: dispatch of a transport `close(code, reason)` event.  If the Peer is
already closed the event is ignored.  Otherwise a soft disconnect — code
4001 or the reason `"Connection dropped by remote peer."` — only sets
`reconnecting`, leaving `closed` false and emitting nothing; any other
code/reason sets `closed` and emits `close(code, reason)`. -/
theorem C5_transport_close_dispatch (st : PeerState) (code : Int) (reason : String) :
    (st.closed = true → Peer.onTransportClose st code reason = st) ∧
    (st.closed = false → (code = 4001 ∨ reason = "Connection dropped by remote peer.") →
      Peer.onTransportClose st code reason = { st with reconnecting := true }) ∧
    (st.closed = false → code ≠ 4001 → reason ≠ "Connection dropped by remote peer." →
      Peer.onTransportClose st code reason =
        { st with closed := true, emitted := st.emitted ++ [Emit.close code reason] }) := by
  refine ⟨fun h => by simp [Peer.onTransportClose, h], fun h hsoft => ?_, fun h hc hr => ?_⟩
  · have hb : (code == 4001 || reason == "Connection dropped by remote peer.") = true := by
      rcases hsoft with h1 | h1 <;> simp [h1]
    simp [Peer.onTransportClose, h, hb]
  · have hb : (code == 4001 || reason == "Connection dropped by remote peer.") = false := by
      simp [hc, hr]
    simp [Peer.onTransportClose, h, hb]

/-- C5 witness: the three branches evaluated on concrete Peers — a soft
disconnect on a fresh Peer, a hard close on a fresh Peer, and any close
event on an already-closed Peer. -/
theorem C5_transport_close_dispatch_witness :
    (Peer.onTransportClose (Peer.construct none false) 4001 "bye").reconnecting = true ∧
    (Peer.onTransportClose (Peer.construct none false) 4001 "bye").closed = false ∧
    (Peer.onTransportClose (Peer.construct none false) 4001 "bye").emitted = [] ∧
    (Peer.onTransportClose (Peer.construct none false) 1005 "gone").closed = true ∧
    (Peer.onTransportClose (Peer.construct none false) 1005 "gone").emitted =
      [Emit.close 1005 "gone"] ∧
    Peer.onTransportClose (Peer.close (Peer.construct none false) 4000 "Normal close by server")
        1005 "gone" =
      Peer.close (Peer.construct none false) 4000 "Normal close by server" := by
  have h1 := (C5_transport_close_dispatch (Peer.construct none false) 4001 "bye").2.1
    rfl (Or.inl rfl)
  have h2 := (C5_transport_close_dispatch (Peer.construct none false) 1005 "gone").2.2
    rfl (by decide) (by decide)
  have h3 := (C5_transport_close_dispatch
    (Peer.close (Peer.construct none false) 4000 "Normal close by server") 1005 "gone").1 rfl
  refine ⟨by rw [h1], ?_, ?_, by rw [h2], ?_, h3⟩
  · rw [h1]; rfl
  · rw [h1]; rfl
  · rw [h2]; rfl

/-- C6: a request registered while not reconnecting installs a pending
entry whose timer duration is `2000 · (15 + 0.1 · |pending|)` milliseconds,
with the pending count taken at registration time; in particular the
duration is 30000 ms with 0 pending and 50000 ms with 100 pending; and the
timer's firing rejects the request with the `request timeout` error. -/
theorem C6_request_timeout_formula (st : PeerState) (freshId : Nat) (method : String)
    (hrec : st.reconnecting = false) :
    (Peer.request st freshId method (Except.ok ())).2.sents =
      st.sents ++ [{ id := freshId, method := method, timerActive := true,
                     timeoutMs := 2000 * (15 + (1 / 10) * (st.sents.length : ℚ)) }] ∧
    requestTimeout 0 = 30000 ∧
    requestTimeout 100 = 50000 ∧
    (∀ st2 : PeerState, (st2.sents.any fun s => s.id == freshId && s.timerActive) = true →
      (timerFire st2 freshId).settles =
        st2.settles ++ [(freshId, Settle.rejected "request timeout" none)]) := by
  refine ⟨by simp [Peer.request, hrec, requestTimeout], by norm_num [requestTimeout],
    by norm_num [requestTimeout], fun st2 h2 => by simp [timerFire, h2]⟩

/-- C6 witness: the first request of a fresh Peer gets the 30000 ms timer
and its firing rejects with the timeout error. -/
theorem C6_request_timeout_formula_witness :
    (Peer.request (Peer.construct none false) 7 "chat" (Except.ok ())).2.sents =
      (Peer.construct none false).sents ++
        [{ id := 7, method := "chat", timerActive := true,
           timeoutMs := 2000 * (15 + (1 / 10) * ((Peer.construct none false).sents.length : ℚ)) }] ∧
    requestTimeout 0 = 30000 ∧
    requestTimeout 100 = 50000 ∧
    (timerFire (Peer.request (Peer.construct none false) 7 "chat" (Except.ok ())).2 7).settles =
      (Peer.request (Peer.construct none false) 7 "chat" (Except.ok ())).2.settles ++
        [(7, Settle.rejected "request timeout" none)] := by
  have h := C6_request_timeout_formula (Peer.construct none false) 7 "chat" rfl
  exact ⟨h.1, h.2.1, h.2.2.1, h.2.2.2 _ rfl⟩

/-- C7: when `transport.send` fails, `request` propagates that failure to
the caller and registers nothing: the pending table is unchanged on the
error path. -/
theorem C7_send_failure_no_entry (st : PeerState) (freshId : Nat) (method e : String)
    (hrec : st.reconnecting = false) :
    (Peer.request st freshId method (Except.error e)).1 = Except.error e ∧
    (Peer.request st freshId method (Except.error e)).2.sents = st.sents := by
  simp [Peer.request, hrec]

/-- C7 witness: a failing send on a fresh Peer. -/
theorem C7_send_failure_no_entry_witness :
    (Peer.request (Peer.construct none false) 7 "chat"
        (Except.error "transport closed")).1 = Except.error "transport closed" ∧
    (Peer.request (Peer.construct none false) 7 "chat"
        (Except.error "transport closed")).2.sents = (Peer.construct none false).sents :=
  C7_send_failure_no_entry (Peer.construct none false) 7 "chat" "transport closed" rfl

/-- C8: the inbound-request `reject` continuation is polymorphic —
`reject(e)` with an error value produces the wire error response with
`errorCode = 500` and `errorReason = e.message`, and `reject(n, e)` with an
integer and an error value produces `errorCode = n` and
`errorReason = e.message`. -/
theorem C8_reject_polymorphic (reqId : Nat) (m : String) (n : Int) :
    rejectContinuation reqId (RejectArg.err m) RejectArg.undef =
      { id := reqId, errorCode := RejectArg.num 500, errorReason := RejectArg.str m } ∧
    rejectContinuation reqId (RejectArg.num n) (RejectArg.err m) =
      { id := reqId, errorCode := RejectArg.num n, errorReason := RejectArg.str m } :=
  ⟨rfl, rfl⟩

/-- C9: `WebSocketTransport.close` ignores any code and reason its caller
passes: its result is the same for every argument pair, and on a not-yet-
closed transport its effects are exactly the upward `close` emission with
no arguments followed by closing the underlying connection with
`(4000, "closed by protoo-server")`; on a closed transport it is a no-op. -/
theorem C9_ws_close_fixed_args (code code2 : Int) (reason reason2 : String) (ws : WSState) :
    wsClose code reason ws = wsClose code2 reason2 ws ∧
    (ws.closed = false →
      (wsClose code reason ws).2 =
        [WSEffect.emitCloseNoArgs, WSEffect.connClose 4000 "closed by protoo-server"]) ∧
    (ws.closed = true → wsClose code reason ws = (ws, [])) := by
  refine ⟨rfl, fun h => by simp [wsClose, h], fun h => by simp [wsClose, h]⟩

/-- C9 witness: a close with the Peer's `(1005, "whatever")` arguments on an
open and on a closed transport. -/
theorem C9_ws_close_fixed_args_witness :
    (wsClose 1005 "whatever"
        { closed := false, pingIntervalActive := true, pingTimeoutActive := true }).2 =
      [WSEffect.emitCloseNoArgs, WSEffect.connClose 4000 "closed by protoo-server"] ∧
    wsClose 1005 "whatever"
        { closed := true, pingIntervalActive := false, pingTimeoutActive := false } =
      ({ closed := true, pingIntervalActive := false, pingTimeoutActive := false }, []) :=
  ⟨(C9_ws_close_fixed_args 1005 0 "whatever" ""
      { closed := false, pingIntervalActive := true, pingTimeoutActive := true }).2.1 rfl,
   (C9_ws_close_fixed_args 1005 0 "whatever" ""
      { closed := true, pingIntervalActive := false, pingTimeoutActive := false }).2.2 rfl⟩

theorem handleResponse_timeoutArmed (st : PeerState) (r : RespMsg) :
    (Peer.handleResponse st r).timeoutArmed = st.timeoutArmed := by
  simp only [Peer.handleResponse, sentResolve, sentReject]
  split
  · split
    · rfl
    · rfl
  · rfl

theorem step_preserves_unarmed (st : PeerState) (e : PeerEvt)
    (he : isInboundActivity e = false) (h : st.timeoutArmed = false) :
    (Peer.step st e).timeoutArmed = false := by
  cases e with
  | message now m => simp [isInboundActivity] at he
  | pong now => simp [isInboundActivity] at he
  | transportClose c r =>
      simp only [Peer.step, Peer.onTransportClose]
      split
      · exact h
      · split
        · exact h
        · exact h

/-- C10: a Peer constructed with an idle timeout does not arm the watchdog
at construction, and the watchdog stays unarmed across any sequence of
inbound events that contains no message and no pong — so such a Peer can
never be closed by the idle timeout.  It is first armed exactly when an
inbound message or pong arrives. -/
theorem C10_idle_watchdog_arming (t : Nat) (tclosed : Bool) (evts : List PeerEvt)
    (h : ∀ e ∈ evts, isInboundActivity e = false) :
    (Peer.construct (some t) tclosed).timeoutArmed = false ∧
    (evts.foldl Peer.step (Peer.construct (some t) tclosed)).timeoutArmed = false ∧
    (∀ st : PeerState, ∀ now : Nat, ∀ m : InMsg, st.timeoutCfg = some t →
      (Peer.onMessage st now m).timeoutArmed = true) ∧
    (∀ st : PeerState, ∀ now : Nat, st.timeoutCfg = some t →
      (Peer.onPong st now).timeoutArmed = true) := by
  have hc : (Peer.construct (some t) tclosed).timeoutArmed = false := by
    cases tclosed <;> rfl
  refine ⟨hc, ?_, ?_, ?_⟩
  · have key : ∀ (l : List PeerEvt) (st : PeerState),
        (∀ e ∈ l, isInboundActivity e = false) → st.timeoutArmed = false →
        (l.foldl Peer.step st).timeoutArmed = false := by
      intro l
      induction l with
      | nil => intro st _ hst; exact hst
      | cons a tl ih =>
          intro st hl hst
          rw [List.foldl_cons]
          exact ih _ (fun e he => hl e (List.mem_cons_of_mem a he))
            (step_preserves_unarmed st a (hl a (List.mem_cons_self a tl)) hst)
    exact key evts _ h hc
  · intro st now m hcfg
    cases m with
    | request i meth => simp [Peer.onMessage, hcfg]
    | response r => simp [Peer.onMessage, hcfg, handleResponse_timeoutArmed]
    | notif meth => simp [Peer.onMessage, hcfg]
  · intro st now hcfg
    simp [Peer.onPong, hcfg]

/-- C10 witness: a Peer with a 5 ms idle timeout that only ever sees a
transport-close event never arms the watchdog; a notification or a pong
arms it. -/
theorem C10_idle_watchdog_arming_witness :
    (Peer.construct (some 5) false).timeoutArmed = false ∧
    (([PeerEvt.transportClose 1001 "down"]).foldl Peer.step
        (Peer.construct (some 5) false)).timeoutArmed = false ∧
    (Peer.onMessage (Peer.construct (some 5) false) 3 (InMsg.notif "hello")).timeoutArmed = true ∧
    (Peer.onPong (Peer.construct (some 5) false) 3).timeoutArmed = true := by
  have h := C10_idle_watchdog_arming 5 false [PeerEvt.transportClose 1001 "down"] (by decide)
  exact ⟨h.1, h.2.1, h.2.2.1 _ 3 (InMsg.notif "hello") rfl, h.2.2.2 _ 3 rfl⟩
